import Mathlib

/-!
Shallow embedding of the irish-mcp-gateway tool-dispatch core:
the JSON-RPC envelope (src/core/mcp.rs, src/infra/http/json.rs), the
tool registry (src/tools/registry.rs, src/tools/registry2.rs), the
dispatcher (src/api/mcp.rs), the retry/backoff wrapper
(src/infra/runtime/limits.rs), the gramadóir wire normalization
(src/clients/gramadoir.rs) and the spellcheck remote backend
(src/tools/spellcheck/remote.rs).
-/

namespace IrishGw

/-- JSON values, mirroring serde_json::Value. Objects are association
lists of fields; numbers that occur in the embedded code are integers. -/
inductive J where
| null : J
| bool (b : Bool) : J
| num (n : Int) : J
| str (s : String) : J
| arr (xs : List J) : J
| obj (fields : List (String × J)) : J

/-- serde_json Value::get(key) on an object: first field with the key;
None on non-objects. -/
def jLookup : List (String × J) → String → Option J
| [], _ => none
| (k, v) :: rest, key => if k = key then some v else jLookup rest key

def J.get : J → String → Option J
| .obj fs, key => jLookup fs key
| _, _ => none

/-- serde_json Value::as_str. -/
def J.asStr : J → Option String
| .str s => some s
| _ => none

/-- The idiom `v.get(key).and_then(|x| x.as_str())` used for required
string arguments. -/
def J.getStr (v : J) (key : String) : Option String :=
  (v.get key).bind J.asStr

/-- RpcErr from src/core/mcp.rs: numeric code, message, optional data. -/
structure RpcErr where
  code : Int
  message : String
  data : Option J

/-- RpcReq from src/core/mcp.rs. `params` defaults to null when absent
(serde default), which the parser has already applied here. -/
structure RpcReq where
  jsonrpc : String
  id : J
  method : String
  params : J

/-- RpcResp from src/core/mcp.rs: the response envelope. -/
structure RpcResp where
  jsonrpc : String
  id : J
  result : Option J
  error : Option RpcErr

/-- The `ok` constructor from src/core/mcp.rs. -/
def rpc_ok (id : J) (result : J) : RpcResp :=
  { jsonrpc := "2.0", id := id, result := some result, error := none }

/-- The `err` constructor from src/core/mcp.rs. -/
def rpc_err (id : J) (code : Int) (msg : String) (data : Option J) : RpcResp :=
  { jsonrpc := "2.0", id := id, result := none,
    error := some { code := code, message := msg, data := data } }

/-- The `parse_error` response from src/infra/http/json.rs: null identifier,
no result, error code -32700. -/
def parse_error (message : String) : RpcResp :=
  { jsonrpc := "2.0", id := J.null, result := none,
    error := some { code := -32700, message := message, data := none } }

/-- A tool as the dispatcher sees it (src/core/tool.rs): ToolSpec
metadata plus the fallible call operation, here a pure function from
arguments to a result or an error string. -/
structure Tool where
  name : String
  description : String
  inputSchema : J
  call : J → Except String J

/-- The Registry of src/tools/registry.rs: a name-keyed map of shared
tools, embedded as an association list with HashMap insert semantics. -/
def Registry := List (String × Tool)

/-- HashMap::insert semantics: replace the binding if the key exists,
else append. -/
def insertTool (key : String) (t : Tool) : List (String × Tool) → List (String × Tool)
| [] => [(key, t)]
| (k0, t0) :: rest => if k0 = key then (key, t) :: rest else (k0, t0) :: insertTool key t rest

/-- HashMap::get. -/
def findTool : List (String × Tool) → String → Option Tool
| [], _ => none
| (k, t) :: rest, key => if k = key then some t else findTool rest key

def registryKeys (reg : Registry) : List String :=
  reg.map Prod.fst

/-- The `tools_list` enumeration from src/api/mcp.rs: one (name, description,
inputSchema) object per registry value, each field coming from the
tool itself (t.name(), t.description(), t.input_schema()). -/
def tools_list (reg : Registry) : J :=
  J.obj [("tools", J.arr (reg.map (fun p =>
    J.obj [("name", J.str p.2.name),
           ("description", J.str p.2.description),
           ("inputSchema", p.2.inputSchema)])))]

/-- The `call_tool` helper from src/api/mcp.rs: requires params.name as a string,
looks the tool up by that name, and calls it with params.arguments
(defaulting to null). -/
def call_tool (reg : Registry) (params : J) : Except String J :=
  match params.getStr "name" with
  | none => .error "missing tool name"
  | some name =>
    match findTool reg name with
    | none => .error ("unknown tool: " ++ name)
    | some t => t.call ((params.get "arguments").getD J.null)

/-- The static initialize result from src/api/mcp.rs. -/
def serverInfoJson : J :=
  J.obj [("serverInfo", J.obj [("name", J.str "irish-mcp-gateway"),
                               ("version", J.str "0.1.0")]),
         ("capabilities", J.obj [])]

/-- The method dispatch of the HTTP handler `http` in src/api/mcp.rs,
after axum has decoded the body into an RpcReq. -/
def httpDispatch (reg : Registry) (req : RpcReq) : RpcResp :=
  match req.method with
  | "initialize" => rpc_ok req.id serverInfoJson
  | "shutdown" => rpc_ok req.id J.null
  | "tools.list" => rpc_ok req.id (tools_list reg)
  | "tools/list" => rpc_ok req.id (tools_list reg)
  | "tools.call" =>
    (match call_tool reg req.params with
     | .ok out => rpc_ok req.id out
     | .error e => rpc_err req.id (-32000) e none)
  | "tools/call" =>
    (match call_tool reg req.params with
     | .ok out => rpc_ok req.id out
     | .error e => rpc_err req.id (-32000) e none)
  | m => rpc_err req.id (-32601) ("unknown method: " ++ m) none

/-- The `handle_stdio_line` helper from src/api/mcp.rs, up to serialization: its
input is the outcome of serde_json::from_str on the line (a request or
a parse-error message) and its output is the response envelope that
the function then serializes. Note this branch table has no shutdown
arm. -/
def handle_stdio_line (reg : Registry) (parsed : Except String RpcReq) : RpcResp :=
  match parsed with
  | .error e => parse_error ("parse error: " ++ e)
  | .ok r =>
    match r.method with
    | "tools.list" => rpc_ok r.id (tools_list reg)
    | "tools/list" => rpc_ok r.id (tools_list reg)
    | "initialize" => rpc_ok r.id serverInfoJson
    | "tools.call" =>
      (match call_tool reg r.params with
       | .ok out => rpc_ok r.id out
       | .error e => rpc_err r.id (-32000) e none)
    | "tools/call" =>
      (match call_tool reg r.params with
       | .ok out => rpc_ok r.id out
       | .error e => rpc_err r.id (-32000) e none)
    | m => rpc_err r.id (-32601) ("unknown method: " ++ m) none

/-- The loop body of `retry_async` from src/infra/runtime/limits.rs,
made explicit in the remaining attempt budget, the current attempt
index `tryNum` and the current backoff `delayMs`. Besides the result
it returns the attempt indices passed to the operation and the sleep
durations performed, in order. The async operation is embedded as a
function from the attempt index to its outcome. -/
def retryGo {E T : Type} (op : Nat → Except E T) :
    Nat → Nat → Nat → Except E T × List Nat × List Nat
| attempts, tryNum, delayMs =>
  match op tryNum, attempts with
  | .ok v, _ => (.ok v, [tryNum], [])
  | .error e, 0 => (.error e, [tryNum], [])
  | .error _, Nat.succ a =>
    let rec_ := retryGo op a (tryNum + 1) (min (delayMs * 2) 1000)
    (rec_.1, tryNum :: rec_.2.1, delayMs :: rec_.2.2)

/-- The wrapper `retry_async(attempts, op)` from src/infra/runtime/limits.rs:
try_num starts at 0 and delay_ms at 50. -/
def retry_async {E T : Type} (attempts : Nat) (op : Nat → Except E T) : Except E T :=
  (retryGo op attempts 0 50).1

/-- The attempt indices at which `retry_async` invokes the operation. -/
def retryCalls {E T : Type} (attempts : Nat) (op : Nat → Except E T) : List Nat :=
  (retryGo op attempts 0 50).2.1

/-- The backoff sleeps (in ms, in order) that `retry_async` performs. -/
def retrySleeps {E T : Type} (attempts : Nat) (op : Nat → Except E T) : List Nat :=
  (retryGo op attempts 0 50).2.2

/-- usize on the 64-bit targets this service builds for. -/
def usizeBound : Nat := 2 ^ 64

/-- Rust `str::parse::<usize>()`: an optional leading plus sign, then
one or more ASCII digits, rejecting anything else and values that
overflow usize. -/
def digitsVal : List Char → Option Nat
| [] => none
| [c] => if c.isDigit then some (c.toNat - 48) else none
| c :: rest =>
  if c.isDigit then
    match digitsVal rest with
    | some n => some ((c.toNat - 48) * 10 ^ rest.length + n)
    | none => none
  else none

def rustParseUsize (s : String) : Option Nat :=
  let cs := match s.data with
            | '+' :: rest => rest
            | cs => cs
  match digitsVal cs with
  | some n => if n < usizeBound then some n else none
  | none => none

/-- The inner helper `parse_usize` of `From<IssueWire> for
GrammarIssue` in src/clients/gramadoir.rs: `s.parse::<usize>().unwrap_or(0)`. -/
def parse_usize (s : String) : Nat :=
  (rustParseUsize s).getD 0

/-- IssueWire from src/clients/gramadoir.rs: the upstream issue shape,
string-encoded numbers included. Fields marked serde-default arrive as
"" when absent. -/
structure IssueWire where
  context : Option String
  contextoffset : String
  errorlength : String
  fromx : String
  fromy : String
  msg : String
  rule_id : String
  tox : String
  toy : String

/-- GrammarIssue from src/domain/mod.rs. -/
structure GrammarIssue where
  code : String
  message : String
  start : Nat
  «end» : Nat
  suggestions : List String

/-- The conversion `From<IssueWire> for GrammarIssue` in src/clients/gramadoir.rs:
start = parse(fromx); end = parse(tox) when that is positive, else
start + parse(errorlength); suggestions always empty. -/
def grammarIssueOfWire (w : IssueWire) : GrammarIssue :=
  let start := parse_usize w.fromx
  let «end» :=
    let tox := parse_usize w.tox
    if tox > 0 then tox else start + parse_usize w.errorlength
  { code := w.rule_id, message := w.msg, start := start, «end» := «end»,
    suggestions := [] }

/-- serde serialization of GrammarIssue (derive Serialize on the
struct in src/domain/mod.rs, fields in declaration order). -/
def GrammarIssue.toJson (g : GrammarIssue) : J :=
  J.obj [("code", J.str g.code),
         ("message", J.str g.message),
         ("start", J.num g.start),
         ("end", J.num g.«end»),
         ("suggestions", J.arr (g.suggestions.map J.str))]

/-- The method `GramadoirRemote::analyze` from src/clients/gramadoir.rs, with the
network abstracted as `upstream text attempt`: the retry wrapper (the
instance built by `new` carries retries = 2, passed in here as
`attempts`) posts the text and the successful wire array is normalized
issue by issue. -/
def analyze (upstream : String → Nat → Except String (List IssueWire))
    (attempts : Nat) (text : String) : Except String (List GrammarIssue) :=
  (retry_async attempts (fun n => upstream text n)).map
    (fun issues => issues.map grammarIssueOfWire)

/-- The method `GrammarRemoteBackend::call` from src/tools/grammar_new/remote.rs:
requires a string "text" argument, delegates to `analyze` on a client
with 2 retries, and wraps the issues under an "issues" key. -/
def grammarRemoteCall (upstream : String → Nat → Except String (List IssueWire))
    (args : J) : Except String J :=
  match args.getStr "text" with
  | none => .error "missing \x27text\x27"
  | some text =>
    (analyze upstream 2 text).map
      (fun issues => J.obj [("issues", J.arr (issues.map GrammarIssue.toJson))])

/-- The grammar remote tool (src/tools/grammar_new/remote.rs ToolSpec
impl) over an abstracted upstream. -/
def grammarRemoteTool (upstream : String → Nat → Except String (List IssueWire)) : Tool :=
  { name := "gael.grammar_check.v2",
    description := "Irish grammar via Gramadóir (remote backend)",
    inputSchema := J.obj [("type", J.str "object"),
                          ("properties", J.obj [("text", J.obj [("type", J.str "string")])]),
                          ("required", J.arr [J.str "text"])],
    call := grammarRemoteCall upstream }

/-- The method `SpellcheckRemoteBackend::call` from src/tools/spellcheck/remote.rs,
paired with the list of outbound HTTP requests the body performs: it
requires a string "text" argument and then returns the placeholder
empty corrections object without touching the network, so the request
trace is empty on every path. -/
def spellcheckRemoteCall (args : J) : Except String J × List String :=
  match args.getStr "text" with
  | none => (.error "missing \x27text\x27", [])
  | some _ => (.ok (J.obj [("corrections", J.arr [])]), [])

/-- The spellcheck remote tool (src/tools/spellcheck/remote.rs
ToolSpec impl). The base URL only feeds the health probe, not call. -/
def spellcheckRemoteTool (_base_url : String) : Tool :=
  { name := "gael.spellcheck.v1",
    description := "Irish spellcheck (remote backend placeholder)",
    inputSchema := J.obj [("type", J.str "object"),
                          ("properties", J.obj [("text", J.obj [("type", J.str "string")])]),
                          ("required", J.arr [J.str "text"])],
    call := fun a => (spellcheckRemoteCall a).1 }

/-- Modelled from the spec: SpellcheckLocalBackend, whose source file
is not part of src/ (only src/tools/registry.rs constructs it). Per
spec section 4.2 it is the local stub returning an empty result set,
and the test `tools_list_returns_expected_shape` of the repository
(src/api/mcp.rs) pins its name to "gael.spellcheck.v1". -/
def spellcheckLocalTool : Tool :=
  { name := "gael.spellcheck.v1",
    description := "Irish spellcheck (local stub)",
    inputSchema := J.obj [("type", J.str "object"),
                          ("properties", J.obj [("text", J.obj [("type", J.str "string")])]),
                          ("required", J.arr [J.str "text"])],
    call := fun a =>
      match a.getStr "text" with
      | none => .error "missing \x27text\x27"
      | some _ => .ok (J.obj [("corrections", J.arr [])]) }

/-- The function `build_registry` from src/tools/registry.rs, with the environment
read (SPELLCHECK_BASE_URL) passed in: always inserts the local
spellcheck stub under the key "spell.check", then replaces it under
the same key with the remote backend when a non-blank base URL is
configured. -/
def build_registry (spellcheckBaseUrl : Option String) : Registry :=
  let map := insertTool "spell.check" spellcheckLocalTool []
  match spellcheckBaseUrl with
  | some base =>
    if base.data.all Char.isWhitespace then map
    else insertTool "spell.check" (spellcheckRemoteTool base) map
  | none => map

/-- ToolRegistry from src/tools/registry2.rs: the by_name HashMap
behind an Arc. The strong reference count of that Arc is carried explicitly
(`refs` counts every ToolRegistry clone sharing this map; 1 means
uniquely owned). -/
structure ToolRegistry where
  refs : Nat
  by_name : List (String × Tool)

/-- The method `ToolRegistry::register` from src/tools/registry2.rs:
`Arc::get_mut` yields the map only when the Arc is uniquely owned
(strong count 1, as carried by `refs`), and the code calls
`.expect(..)` on that, so a shared registry panics — modelled as
`none` — and a uniquely owned one inserts under the name of the tool. -/
def ToolRegistry.register (reg : ToolRegistry) (t : Tool) : Option ToolRegistry :=
  if reg.refs = 1 then
    some { reg with by_name := insertTool t.name t reg.by_name }
  else
    none

/-! Helper predicates and concrete fixtures used by the theorems. -/

/-- A response with exactly one of result and error populated. -/
def exactlyOne (r : RpcResp) : Prop :=
  (∃ v, r.result = some v ∧ r.error = none) ∨
  (∃ e, r.result = none ∧ r.error = some e)

theorem exactlyOne_rpc_ok (id v : J) : exactlyOne (rpc_ok id v) :=
  Or.inl ⟨v, rfl, rfl⟩

theorem exactlyOne_rpc_err (id : J) (c : Int) (m : String) (d : Option J) :
    exactlyOne (rpc_err id c m d) :=
  Or.inr ⟨{ code := c, message := m, data := d }, rfl, rfl⟩

theorem exactlyOne_parse_error (m : String) : exactlyOne (parse_error m) :=
  Or.inr ⟨{ code := -32700, message := m, data := none }, rfl, rfl⟩

/-- The "name" field of each entry of the "tools" array of a
tools.list result. -/
def listedNames (v : J) : List (Option J) :=
  match v.get "tools" with
  | some (.arr ts) => ts.map (fun t => t.get "name")
  | _ => []

/-- The upstream issue of the grammar-check scenario: the mocked wire
object of the repository test `http_grammar_check_ok_with_mocked_backend`
(src/api/mcp.rs), rule id "AGR". -/
def agrWire : IssueWire :=
  { context := some "Tá an peann ar an mbord", contextoffset := "0",
    errorlength := "2", fromx := "0", fromy := "0", msg := "Agreement",
    rule_id := "AGR", tox := "2", toy := "0" }

/-- The scenario upstream: answers the scenario text with the single
AGR issue, anything else with a failure. -/
def agrUpstream : String → Nat → Except String (List IssueWire) :=
  fun text _ =>
    if text = "Tá an peann ar an mbord" then .ok [agrWire]
    else .error "unexpected request"

/-- Extracts issues[0].code out of the result of an RPC response. -/
def firstIssueCode (resp : RpcResp) : Option J :=
  match resp.result with
  | some r =>
    (match r.get "issues" with
     | some (.arr (first :: _)) => first.get "code"
     | _ => none)
  | none => none

/-! The claims. -/

/-- C4: for every input line that fails to decode as an RpcReq, the
stdio dispatcher produces the parse_error response: identifier null,
no result, error code -32700. -/
theorem parse_failure_response_shape (reg : Registry) (msg : String) :
    (handle_stdio_line reg (.error msg)).id = J.null ∧
    (handle_stdio_line reg (.error msg)).result = none ∧
    (handle_stdio_line reg (.error msg)).error =
      some { code := -32700, message := "parse error: " ++ msg, data := none } :=
  ⟨rfl, rfl, rfl⟩

/-- C5: for every well-parsed request whose method is none of
initialize, shutdown, tools.list, tools/list, tools.call, tools/call,
both the HTTP dispatcher and the stdio dispatcher answer with error
code -32601 and a message containing the offending method string. -/
theorem unknown_method_response (reg : Registry) (req : RpcReq)
    (h : req.method ∉ ["initialize", "shutdown", "tools.list", "tools/list",
                       "tools.call", "tools/call"]) :
    httpDispatch reg req =
      rpc_err req.id (-32601) ("unknown method: " ++ req.method) none ∧
    handle_stdio_line reg (.ok req) =
      rpc_err req.id (-32601) ("unknown method: " ++ req.method) none ∧
    ∃ pre post, "unknown method: " ++ req.method = pre ++ req.method ++ post := by
  simp only [List.mem_cons, List.not_mem_nil, or_false, not_or] at h
  obtain ⟨h1, h2, h3, h4, h5, h6⟩ := h
  refine ⟨?_, ?_, "unknown method: ", "", by simp⟩
  · unfold httpDispatch
    split <;> simp_all
  · unfold handle_stdio_line
    split <;> simp_all

/-- C5 witness: the unknown method "nope" is answered with -32601 on
both transports. -/
theorem unknown_method_response_witness :
    httpDispatch [] { jsonrpc := "2.0", id := J.num 4, method := "nope", params := J.null } =
      rpc_err (J.num 4) (-32601) ("unknown method: " ++ "nope") none :=
  (unknown_method_response []
    { jsonrpc := "2.0", id := J.num 4, method := "nope", params := J.null }
    (by decide)).1

/-- C6: every response of the HTTP dispatcher and of the stdio
dispatcher carries exactly one of result and error, and echoes the
request identifier; a response to an unparseable message instead
carries identifier null. -/
theorem dispatcher_response_invariant (reg : Registry) (req : RpcReq) (msg : String) :
    (exactlyOne (httpDispatch reg req) ∧ (httpDispatch reg req).id = req.id) ∧
    (exactlyOne (handle_stdio_line reg (.ok req)) ∧
      (handle_stdio_line reg (.ok req)).id = req.id) ∧
    (exactlyOne (handle_stdio_line reg (.error msg)) ∧
      (handle_stdio_line reg (.error msg)).id = J.null) := by
  refine ⟨⟨?_, ?_⟩, ⟨?_, ?_⟩, exactlyOne_parse_error _, rfl⟩
  · unfold httpDispatch
    (repeat' split) <;>
      first
        | exact exactlyOne_rpc_ok _ _
        | exact exactlyOne_rpc_err _ _ _ _
  · unfold httpDispatch
    (repeat' split) <;> rfl
  · unfold handle_stdio_line
    (repeat' split) <;>
      first
        | exact exactlyOne_parse_error _
        | exact exactlyOne_rpc_ok _ _
        | exact exactlyOne_rpc_err _ _ _ _
  · unfold handle_stdio_line
    (repeat' split) <;> simp_all [rpc_ok, rpc_err, parse_error]

/-- Shifting a consecutive index range by one: mapping t + _ over
0..n equals t followed by mapping (t+1) + _ over 0..n-1. -/
theorem map_add_range (t n : Nat) :
    List.map (fun i => t + i) (List.range (n + 1)) =
      t :: List.map (fun i => (t + 1) + i) (List.range n) := by
  rw [List.range_succ_eq_map, List.map_cons, List.map_map]
  refine congrArg₂ List.cons (Nat.add_zero t) (List.map_congr_left ?_)
  intro i _
  simp only [Function.comp_apply]
  omega

/-- When the operation fails at every index, the retry loop runs the
operation once per attempt in the budget plus the initial try, at the
consecutive indices t, t+1, ..., t+a, and surfaces the error of the
last invocation. -/
theorem retryGo_allFail {E T : Type} (op : Nat → Except E T) (e : Nat → E)
    (h : ∀ n, op n = .error (e n)) :
    ∀ a t d, (retryGo op a t d).1 = .error (e (t + a)) ∧
      (retryGo op a t d).2.1 = (List.range (a + 1)).map (fun i => t + i) := by
  intro a
  induction a with
  | zero =>
    intro t d
    have hz : retryGo op 0 t d = (.error (e t), [t], []) := by
      simp [retryGo, h t]
    rw [hz]
    exact ⟨rfl, rfl⟩
  | succ a ih =>
    intro t d
    obtain ⟨ih1, ih2⟩ := ih (t + 1) (min (d * 2) 1000)
    have hunfold : retryGo op (a + 1) t d =
        ((retryGo op a (t + 1) (min (d * 2) 1000)).1,
         t :: (retryGo op a (t + 1) (min (d * 2) 1000)).2.1,
         d :: (retryGo op a (t + 1) (min (d * 2) 1000)).2.2) := by
      simp [retryGo, h t]
    constructor
    · rw [hunfold, show t + (a + 1) = (t + 1) + a from by omega]
      exact ih1
    · rw [hunfold]
      show t :: (retryGo op a (t + 1) (min (d * 2) 1000)).2.1 = _
      rw [ih2, map_add_range t (a + 1)]

/-- C2: when the operation fails on every attempt, retry_async with a
retry budget of N invokes the operation exactly N+1 times — at the
attempt indices 0, 1, ..., N — and returns the error produced by the
final (N-th) invocation unchanged. -/
theorem retry_async_exhausts_attempts {E T : Type} (attempts : Nat)
    (op : Nat → Except E T) (e : Nat → E) (h : ∀ n, op n = .error (e n)) :
    retry_async attempts op = .error (e attempts) ∧
    retryCalls attempts op = List.range (attempts + 1) ∧
    (retryCalls attempts op).length = attempts + 1 := by
  obtain ⟨h1, h2⟩ := retryGo_allFail op e h attempts 0 50
  have hc : retryCalls attempts op = List.range (attempts + 1) := by
    show (retryGo op attempts 0 50).2.1 = _
    rw [h2]
    simp
  refine ⟨?_, hc, ?_⟩
  · show (retryGo op attempts 0 50).1 = _
    rw [h1, Nat.zero_add]
  · rw [hc]
    exact List.length_range _

/-- C2 witness: an operation that always fails with its own attempt
index, given 2 retries, is invoked at indices 0, 1, 2 and the
surfaced error is the one of attempt 2. -/
theorem retry_async_exhausts_attempts_witness :
    retry_async 2 (fun n => (.error n : Except Nat Unit)) = .error 2 ∧
    retryCalls 2 (fun n => (.error n : Except Nat Unit)) = List.range 3 ∧
    (retryCalls 2 (fun n => (.error n : Except Nat Unit))).length = 3 :=
  retry_async_exhausts_attempts 2 (fun n => (.error n : Except Nat Unit))
    (fun n => n) (fun _ => rfl)

/-- Doubling under the 1000 cap commutes with taking powers: one
doubling step followed by i more doublings of the capped value reaches
the same capped value as i+1 doublings. -/
theorem cap_double (d i : Nat) :
    min (min (d * 2) 1000 * 2 ^ i) 1000 = min (d * 2 ^ (i + 1)) 1000 := by
  rcases Nat.le_total (d * 2) 1000 with h | h
  · rw [Nat.min_eq_left h, pow_succ]
    ring_nf
  · rw [Nat.min_eq_right h]
    have hp : (1 : Nat) ≤ 2 ^ i := Nat.one_le_two_pow
    have h1 : (1000 : Nat) ≤ 1000 * 2 ^ i :=
      le_mul_of_one_le_right (by norm_num) hp
    have h2 : (1000 : Nat) ≤ d * 2 ^ (i + 1) := by
      calc (1000 : Nat) ≤ d * 2 := h
        _ ≤ d * 2 * 2 ^ i := le_mul_of_one_le_right (Nat.zero_le _) hp
        _ = d * 2 ^ (i + 1) := by rw [pow_succ]; ring
    rw [Nat.min_eq_right h1, Nat.min_eq_right h2]

/-- Every sleep the retry loop performs, counted from a state whose
current delay is at most the cap, doubles the delay and caps it at
1000. -/
theorem retryGo_sleeps {E T : Type} (op : Nat → Except E T) :
    ∀ a t d i x, d ≤ 1000 → (retryGo op a t d).2.2.get? i = some x →
      x = min (d * 2 ^ i) 1000 := by
  intro a
  induction a with
  | zero =>
    intro t d i x _ hx
    cases hop : op t <;> simp [retryGo, hop] at hx
  | succ a ih =>
    intro t d i x hd hx
    cases hop : op t with
    | ok v => simp [retryGo, hop] at hx
    | error e =>
      have hu : retryGo op (a + 1) t d =
          ((retryGo op a (t + 1) (min (d * 2) 1000)).1,
           t :: (retryGo op a (t + 1) (min (d * 2) 1000)).2.1,
           d :: (retryGo op a (t + 1) (min (d * 2) 1000)).2.2) := by
        simp [retryGo, hop]
      rw [hu] at hx
      cases i with
      | zero =>
        simp only [List.get?_cons_zero, Option.some.injEq] at hx
        rw [← hx, pow_zero, Nat.mul_one, Nat.min_eq_left hd]
      | succ i =>
        rw [cap_double d i |>.symm]
        exact ih (t + 1) (min (d * 2) 1000) i x (Nat.min_le_right _ _)
          (by simpa using hx)

/-- C3: the backoff delay slept before the k-th retry (k counted from
zero at the first retry) is exactly min(50ms * 2^k, 1000ms): it starts
at 50ms, doubles after each retry and is capped at 1000ms, with no
jitter. -/
theorem retry_backoff_formula {E T : Type} (attempts : Nat)
    (op : Nat → Except E T) (k x : Nat)
    (h : (retrySleeps attempts op).get? k = some x) :
    x = min (50 * 2 ^ k) 1000 :=
  retryGo_sleeps op attempts 0 50 k x (by norm_num) h

/-- C3 witness: with 6 retries of an always-failing operation the
sleeps are 50, 100, 200, 400, 800, 1000; the 5th (zero-indexed) sleep
is 1000 = min(50 * 2^5, 1000). -/
theorem retry_backoff_formula_witness :
    retrySleeps 6 (fun n => (.error n : Except Nat Unit)) =
      [50, 100, 200, 400, 800, 1000] ∧
    (1000 : Nat) = min (50 * 2 ^ 5) 1000 :=
  ⟨rfl, retry_backoff_formula 6 (fun n => (.error n : Except Nat Unit)) 5 1000 rfl⟩

/-- C1: at the concrete input showing the divergence — a tools.list
dispatch against build_registry with SPELLCHECK_BASE_URL configured —
the name listed in the tools array is "gael.spellcheck.v1" (the
name() of the tool itself), while the key set of the registry map is
{"spell.check"}, so the listed name set does not equal the key set;
the listed name is not even a key of the map. -/
theorem tools_list_names_diverge_from_keys :
    listedNames (tools_list (build_registry (some "http://example"))) =
      [some (J.str "gael.spellcheck.v1")] ∧
    registryKeys (build_registry (some "http://example")) = ["spell.check"] ∧
    "gael.spellcheck.v1" ∉ registryKeys (build_registry (some "http://example")) :=
  ⟨rfl, rfl, by decide⟩

/-- C7: a tools.call of the grammar-check tool with text
"Tá an peann ar an mbord", against an upstream that answers that text
with the single AGR issue, yields an RPC result whose issues array
has a first element with code "AGR". -/
theorem grammar_agr_scenario_first_code :
    firstIssueCode (httpDispatch
      [("gael.grammar_check.v2", grammarRemoteTool agrUpstream)]
      { jsonrpc := "2.0", id := J.num 2, method := "tools.call",
        params := J.obj [("name", J.str "gael.grammar_check.v2"),
                         ("arguments", J.obj [("text", J.str "Tá an peann ar an mbord")])] }) =
      some (J.str "AGR") :=
  rfl

/-- C8: normalization of an upstream wire issue parses the
string-encoded numeric fields with unparsable strings defaulting to
zero, and the normalized end offset equals the parsed tox when that is
positive and start + parsed errorlength otherwise. -/
theorem issue_wire_normalization (w : IssueWire) (s : String)
    (h : rustParseUsize s = none) :
    parse_usize s = 0 ∧
    (grammarIssueOfWire w).start = parse_usize w.fromx ∧
    (grammarIssueOfWire w).«end» =
      (match rustParseUsize w.tox with
       | some t =>
         if 0 < t then t else parse_usize w.fromx + parse_usize w.errorlength
       | none => parse_usize w.fromx + parse_usize w.errorlength) := by
  refine ⟨by simp [parse_usize, h], rfl, ?_⟩
  simp only [grammarIssueOfWire, parse_usize]
  cases hto : rustParseUsize w.tox with
  | none => simp [hto]
  | some t => simp [hto]

/-- C8 witness: the AGR wire fixture has start 0 and end 2 (tox "2" is
positive), and the unparsable string "abc" defaults to zero. -/
theorem issue_wire_normalization_witness :
    rustParseUsize "abc" = none ∧
    (parse_usize "abc" = 0 ∧
     (grammarIssueOfWire agrWire).start = parse_usize agrWire.fromx ∧
     (grammarIssueOfWire agrWire).«end» =
       (match rustParseUsize agrWire.tox with
        | some t =>
          if 0 < t then t
          else parse_usize agrWire.fromx + parse_usize agrWire.errorlength
        | none => parse_usize agrWire.fromx + parse_usize agrWire.errorlength)) :=
  ⟨rfl, issue_wire_normalization agrWire "abc" rfl⟩

/-- C9: registering on a ToolRegistry whose inner shared map has more
than one reference panics (modelled as none) instead of inserting;
register succeeds exactly on a uniquely-owned registry, where it
inserts the tool under its own name. -/
theorem register_requires_unique_ownership (reg : ToolRegistry) (t : Tool) :
    (1 < reg.refs → reg.register t = none) ∧
    (reg.refs = 1 → reg.register t =
      some { reg with by_name := insertTool t.name t reg.by_name }) := by
  constructor
  · intro h
    have hne : reg.refs ≠ 1 := by omega
    simp [ToolRegistry.register, hne]
  · intro h
    simp [ToolRegistry.register, h]

/-- C9 witness: a registry with a second clone of the shared map
(refs = 2) panics on register; a uniquely-owned one (refs = 1)
inserts. -/
theorem register_requires_unique_ownership_witness :
    ({ refs := 2, by_name := [] } : ToolRegistry).register spellcheckLocalTool = none ∧
    ({ refs := 1, by_name := [] } : ToolRegistry).register spellcheckLocalTool =
      some { refs := 1,
             by_name := [("gael.spellcheck.v1", spellcheckLocalTool)] } :=
  ⟨(register_requires_unique_ownership _ spellcheckLocalTool).1 (by norm_num),
   (register_requires_unique_ownership _ spellcheckLocalTool).2 rfl⟩

/-- C10: the call of the spellcheck remote backend returns exactly the
empty corrections object on any arguments carrying a string "text"
field, and the missing-text error otherwise; on every path its
outbound request trace is empty, so it never contacts its configured
base URL. -/
theorem spellcheck_remote_call_behavior :
    (∀ args s, args.getStr "text" = some s →
      spellcheckRemoteCall args = (.ok (J.obj [("corrections", J.arr [])]), [])) ∧
    (∀ args, args.getStr "text" = none →
      spellcheckRemoteCall args = (.error "missing \x27text\x27", [])) := by
  constructor
  · intro args s h
    simp [spellcheckRemoteCall, h]
  · intro args h
    simp [spellcheckRemoteCall, h]

/-- C10 witness: arguments with text "Dia" get empty corrections and
no outbound request; empty-object arguments get the missing-text
error. -/
theorem spellcheck_remote_call_behavior_witness :
    spellcheckRemoteCall (J.obj [("text", J.str "Dia")]) =
      (.ok (J.obj [("corrections", J.arr [])]), []) ∧
    spellcheckRemoteCall (J.obj []) = (.error "missing \x27text\x27", []) :=
  ⟨spellcheck_remote_call_behavior.1 _ "Dia" rfl,
   spellcheck_remote_call_behavior.2 _ rfl⟩

end IrishGw
